import Mathlib

/-!
Verification of the judge evaluation and statistical aggregation pipeline
(vibexml_evaluation): the randomized A/B assignment, the structured judgment
with deterministic fallback, the de-randomization mapping, the aggregate
win counts and rates, and the statistical analyzer (Cohen's d, binomial
test, inter-rater reliability).

Embedding conventions: Python floats on score data are modelled as rationals
where the code only adds, divides and compares them, and as real numbers
(with an Option layer whose `none` plays the role of IEEE NaN) for the
effect-size computation, whose square roots are irrational.  The judge
oracle call is modelled as an `Except` value passed in: `Except.error`
stands for any raised exception (schema violation, parse error, network
failure).  The process-wide random source is modelled as explicit state of
an arbitrary type, with `random.seed` and `random.choice` as parameters.
-/

/-- Per-criterion scores of one labeled response (`CriteriaScores` in judge.py). -/
structure CriteriaScores where
  accuracy_completeness : Int
  structured_data_utilization : Int
  precision_specificity : Int
  logical_flow_organization : Int
  contextual_understanding : Int
deriving DecidableEq

/-- The pydantic field bounds of `CriteriaScores`: every criterion in [60, 95]. -/
def CriteriaScores.Valid (c : CriteriaScores) : Prop :=
  60 ≤ c.accuracy_completeness ∧ c.accuracy_completeness ≤ 95 ∧
  60 ≤ c.structured_data_utilization ∧ c.structured_data_utilization ≤ 95 ∧
  60 ≤ c.precision_specificity ∧ c.precision_specificity ≤ 95 ∧
  60 ≤ c.logical_flow_organization ∧ c.logical_flow_organization ≤ 95 ∧
  60 ≤ c.contextual_understanding ∧ c.contextual_understanding ≤ 95

instance (c : CriteriaScores) : Decidable c.Valid := by
  unfold CriteriaScores.Valid
  infer_instance

/-- The judge verdict labels A, B, TIE (the `winner` literal of `StructuredJudgment`). -/
inductive ABWinner
  | A
  | B
  | TIE
deriving DecidableEq

/-- The validated structured verdict (`StructuredJudgment` in judge.py). -/
structure StructuredJudgment where
  winner : ABWinner
  response_a_scores : CriteriaScores
  response_b_scores : CriteriaScores
  response_a_overall : Int
  response_b_overall : Int
  confidence : Int
  reasoning : String
  main_advantages : List String
deriving DecidableEq

/-- The pydantic constraints the judge provider validates before returning a
`StructuredJudgment`: criterion scores and overalls in [60, 95], confidence in
[50, 100], reasoning at least 50 characters, at most 3 advantages. -/
def StructuredJudgment.Valid (s : StructuredJudgment) : Prop :=
  s.response_a_scores.Valid ∧ s.response_b_scores.Valid ∧
  60 ≤ s.response_a_overall ∧ s.response_a_overall ≤ 95 ∧
  60 ≤ s.response_b_overall ∧ s.response_b_overall ≤ 95 ∧
  50 ≤ s.confidence ∧ s.confidence ≤ 100 ∧
  50 ≤ s.reasoning.length ∧ s.main_advantages.length ≤ 3

instance (s : StructuredJudgment) : Decidable s.Valid := by
  unfold StructuredJudgment.Valid
  infer_instance

/-- The canonical, format-agnostic result (`JudgmentResult` in judge.py).
`criteria_scores` is the `Dict[str, Dict[str, float]]` modelled as an
association list criterion name to (raw_text value, vibexml value). -/
structure JudgmentResult where
  test_case_name : String
  winner : String
  confidence : ℚ
  raw_text_score : ℚ
  vibexml_score : ℚ
  reasoning : String
  criteria_scores : List (String × ℚ × ℚ)
deriving DecidableEq

/-- Python `str.split()` with no argument: split on whitespace runs, dropping
empty chunks, modelled on the character list of the string. -/
def pySplitWords (s : String) : List (List Char) :=
  (s.data.splitOnP (fun c => c.isWhitespace)).filter (fun w => !w.isEmpty)

/-- `len(s.split())` of judge.py's fallback heuristic. -/
def wordCount (s : String) : Nat :=
  (pySplitWords s).length

/-- The deterministic fallback judgment (`LLMJudge._fallback_judgment`):
length-based scores `min(word_count / 10 * 5, 100)`, tie when the scores are
within 5 of each other, confidence 50, a fixed reasoning string, and a single
synthetic "fallback" criterion entry. -/
def fallback_judgment (test_case_name raw_text_response vibexml_response : String) :
    JudgmentResult :=
  let raw_text_score : ℚ := min ((wordCount raw_text_response : ℚ) / 10 * 5) 100
  let vibexml_score : ℚ := min ((wordCount vibexml_response : ℚ) / 10 * 5) 100
  { test_case_name := test_case_name
    winner :=
      if |raw_text_score - vibexml_score| < 5 then "tie"
      else if raw_text_score > vibexml_score then "raw_text" else "vibexml"
    confidence := 50
    raw_text_score := raw_text_score
    vibexml_score := vibexml_score
    reasoning := "Fallback judgment due to parsing error"
    criteria_scores := [("fallback", raw_text_score, vibexml_score)] }

/-- The winner table of `LLMJudge.judge_responses`: when raw_text was labeled
A, A maps to "raw_text", B to "vibexml", TIE to "tie"; otherwise mirrored. -/
def winner_map (raw_text_is_a : Bool) (w : ABWinner) : String :=
  if raw_text_is_a then
    match w with
    | .A => "raw_text"
    | .B => "vibexml"
    | .TIE => "tie"
  else
    match w with
    | .A => "vibexml"
    | .B => "raw_text"
    | .TIE => "tie"

/-- Modelled from the spec: "re-randomizing" a mapped winner with the same
Assignment, the inverse direction of the de-randomization table, used to state
the round-trip property.  Not a function of the source. -/
def winner_unmap (raw_text_is_a : Bool) (w : String) : Option ABWinner :=
  if raw_text_is_a then
    if w = "raw_text" then some .A
    else if w = "vibexml" then some .B
    else if w = "tie" then some .TIE
    else none
  else
    if w = "vibexml" then some .A
    else if w = "raw_text" then some .B
    else if w = "tie" then some .TIE
    else none

/-- The five criteria entries `judge_responses` builds from the de-randomized
criterion score sets (first component raw_text, second vibexml). -/
def criteriaScoresOf (raw_text_criteria vibexml_criteria : CriteriaScores) :
    List (String × ℚ × ℚ) :=
  [("accuracy_completeness",
      (raw_text_criteria.accuracy_completeness : ℚ),
      (vibexml_criteria.accuracy_completeness : ℚ)),
   ("structured_data_utilization",
      (raw_text_criteria.structured_data_utilization : ℚ),
      (vibexml_criteria.structured_data_utilization : ℚ)),
   ("precision_specificity",
      (raw_text_criteria.precision_specificity : ℚ),
      (vibexml_criteria.precision_specificity : ℚ)),
   ("logical_flow_organization",
      (raw_text_criteria.logical_flow_organization : ℚ),
      (vibexml_criteria.logical_flow_organization : ℚ)),
   ("contextual_understanding",
      (raw_text_criteria.contextual_understanding : ℚ),
      (vibexml_criteria.contextual_understanding : ℚ))]

/-- `LLMJudge.judge_responses` after the assignment draw: the oracle call is
an `Except` outcome (`error` for any exception), `raw_text_is_a` the recorded
assignment.  On success the verdict is de-randomized with the table selected
by the assignment; on any failure the deterministic fallback is returned. -/
def judge_responses (oracle : Except String StructuredJudgment)
    (test_case_name : String) (raw_text_is_a : Bool)
    (raw_text_response vibexml_response : String) : JudgmentResult :=
  match oracle with
  | .ok sj =>
      if raw_text_is_a then
        { test_case_name := test_case_name
          winner := winner_map true sj.winner
          confidence := (sj.confidence : ℚ)
          raw_text_score := (sj.response_a_overall : ℚ)
          vibexml_score := (sj.response_b_overall : ℚ)
          reasoning := sj.reasoning
          criteria_scores := criteriaScoresOf sj.response_a_scores sj.response_b_scores }
      else
        { test_case_name := test_case_name
          winner := winner_map false sj.winner
          confidence := (sj.confidence : ℚ)
          raw_text_score := (sj.response_b_overall : ℚ)
          vibexml_score := (sj.response_a_overall : ℚ)
          reasoning := sj.reasoning
          criteria_scores := criteriaScoresOf sj.response_b_scores sj.response_a_scores }
  | .error _ => fallback_judgment test_case_name raw_text_response vibexml_response

/-- `sum(1 for j in judgments if j.winner == "vibexml")` of
`JudgmentAnalyzer.analyze_judgments` and `generate_statistical_summary`. -/
def vibexml_wins (judgments : List JudgmentResult) : Nat :=
  (judgments.filter (fun j => j.winner == "vibexml")).length

/-- `sum(1 for j in judgments if j.winner == "raw_text")`. -/
def raw_text_wins (judgments : List JudgmentResult) : Nat :=
  (judgments.filter (fun j => j.winner == "raw_text")).length

/-- `sum(1 for j in judgments if j.winner == "tie")`. -/
def ties (judgments : List JudgmentResult) : Nat :=
  (judgments.filter (fun j => j.winner == "tie")).length

/-- The probability mass `C(n, i) / 2 ^ n` of the null binomial distribution
with success probability one half. -/
def binomPmfHalf (n i : Nat) : ℚ :=
  (n.choose i : ℚ) / 2 ^ n

/-- Modelled from the spec: `scipy.stats.binomtest(k, n, 0.5).pvalue` (the
library call of `generate_statistical_summary` is not part of the repository).
The two-sided p-value sums the null probabilities of every outcome at most as
likely as the observed count k. -/
def binomtest_pvalue (k n : Nat) : ℚ :=
  (Finset.range (n + 1)).sum fun i =>
    if binomPmfHalf n i ≤ binomPmfHalf n k then binomPmfHalf n i else 0

/-- The `categorical_outcomes` block of
`StatisticalAnalysisReporter.generate_statistical_summary`. -/
structure CategoricalOutcomes where
  vibexml_wins : Nat
  raw_text_wins : Nat
  ties : Nat
  total_cases : Nat
  vibexml_win_rate : ℚ
  raw_text_win_rate : ℚ
  tie_rate : ℚ
  binomial_test_p_value : ℚ
  binomial_test_significant : Bool
deriving DecidableEq

/-- The categorical win-rate analysis of `generate_statistical_summary`:
counts, rates as fractions of the total, and the two-sided binomial test of
the vibexml win count against null probability one half. -/
def categorical_outcomes (judgments : List JudgmentResult) : CategoricalOutcomes :=
  { vibexml_wins := vibexml_wins judgments
    raw_text_wins := raw_text_wins judgments
    ties := ties judgments
    total_cases := judgments.length
    vibexml_win_rate := (vibexml_wins judgments : ℚ) / (judgments.length : ℚ)
    raw_text_win_rate := (raw_text_wins judgments : ℚ) / (judgments.length : ℚ)
    tie_rate := (ties judgments : ℚ) / (judgments.length : ℚ)
    binomial_test_p_value := binomtest_pvalue (vibexml_wins judgments) judgments.length
    binomial_test_significant :=
      decide (binomtest_pvalue (vibexml_wins judgments) judgments.length < 1 / 20) }

/-- `random.seed(random_seed)` in `LLMJudge.__init__`: when a seed is given
the process-wide random source is re-seeded once at construction, otherwise
its prior state is kept.  The source is abstract: `S` its state type,
`seedFn` its seeding function. -/
def llmJudgeInit {S : Type} (seedFn : Nat → S) (random_seed : Option Nat) (s : S) : S :=
  match random_seed with
  | some seed => seedFn seed
  | none => s

/-- The per-scenario draws of `create_judgment_prompt`: one
`random.choice([True, False])` per scenario in input order, threading the
random-source state. -/
def assignment_draws {S : Type} (choice : S → Bool × S) :
    List String → S → List Bool
  | [], _ => []
  | _ :: scenarios, s =>
      let r := choice s
      r.1 :: assignment_draws choice scenarios r.2

/-- One full run of the assignment builder: construct the judge with an
optional seed (seeding the shared random source once), then draw one
`raw_text_is_a` boolean per scenario in order. -/
def run_assignments {S : Type} (seedFn : Nat → S) (choice : S → Bool × S)
    (random_seed : Option Nat) (scenarios : List String) (s : S) : List Bool :=
  assignment_draws choice scenarios (llmJudgeInit seedFn random_seed s)

section EffectSize

open Classical

/-- Division as numpy evaluates it on scalars: a zero denominator yields NaN,
modelled as `none`; any NaN operand propagates. -/
noncomputable def rdiv (a b : ℝ) : Option ℝ :=
  if b = 0 then none else some (a / b)

/-- `np.mean(g)`: NaN on an empty list. -/
noncomputable def np_mean (g : List ℝ) : Option ℝ :=
  rdiv g.sum (g.length : ℝ)

/-- `np.std(g, ddof=1) ** 2`, the sample variance with denominator n − 1:
NaN on lists of fewer than two elements. -/
noncomputable def np_var_ddof1 (g : List ℝ) : Option ℝ :=
  (np_mean g).bind fun m =>
    rdiv ((g.map fun x => (x - m) ^ 2).sum) ((g.length : ℝ) - 1)

/-- `np.std(g, ddof=1)`. -/
noncomputable def np_std_ddof1 (g : List ℝ) : Option ℝ :=
  (np_var_ddof1 g).map Real.sqrt

/-- The pooled standard deviation of `StatisticalAnalyzer.calculate_effect_size`:
`sqrt(((n1 - 1) * std1 ** 2 + (n2 - 1) * std2 ** 2) / (n1 + n2 - 2))`, NaN
propagating from either sample standard deviation or from a zero denominator. -/
noncomputable def pooled_std (group1 group2 : List ℝ) : Option ℝ :=
  (np_std_ddof1 group1).bind fun std1 =>
  (np_std_ddof1 group2).bind fun std2 =>
  (rdiv (((group1.length : ℝ) - 1) * std1 ^ 2 + ((group2.length : ℝ) - 1) * std2 ^ 2)
      ((group1.length : ℝ) + (group2.length : ℝ) - 2)).map Real.sqrt

/-- The `cohens_d` value of `calculate_effect_size`: 0 when the pooled
standard deviation compares equal to 0, otherwise
`(mean(group2) - mean(group1)) / pooled_std`.  A NaN pooled standard
deviation compares unequal to 0 and propagates through the division. -/
noncomputable def cohens_d (group1 group2 : List ℝ) : Option ℝ :=
  match pooled_std group1 group2 with
  | none => none
  | some ps =>
      if ps = 0 then some 0
      else (np_mean group1).bind fun m1 =>
           (np_mean group2).bind fun m2 => some ((m2 - m1) / ps)

end EffectSize

/-- The result record of `MultiJudgeValidator.calculate_inter_rater_reliability`. -/
structure ReliabilityResult where
  average_pairwise_correlation : ℚ
  reliability_interpretation : String
  individual_correlations : List ℚ
  n_judges : Nat
  n_cases : Nat
deriving DecidableEq

/-- `MultiJudgeValidator._interpret_reliability`. -/
def interpret_reliability (correlation : ℚ) : String :=
  if correlation ≥ 9 / 10 then "excellent"
  else if correlation ≥ 8 / 10 then "good"
  else if correlation ≥ 7 / 10 then "acceptable"
  else if correlation ≥ 6 / 10 then "questionable"
  else "poor"

/-- Column i of the judgments matrix (`judgments_matrix[:, i]`), the matrix
given as its list of rows (one row per case, one entry per judge). -/
def matrixColumn (rows : List (List ℚ)) (i : Nat) : List ℚ :=
  rows.map (fun row => row.getD i 0)

/-- The correlation loop of `calculate_inter_rater_reliability`: for every
pair i < j of judges, the pairwise Pearson correlation of columns i and j,
skipping NaN values.  `pearsonr` is the external scipy call, `none` its NaN. -/
def pairwise_correlations (pearsonr : List ℚ → List ℚ → Option ℚ)
    (rows : List (List ℚ)) (n_judges : Nat) : List ℚ :=
  ((List.range n_judges).map fun i =>
    ((List.range n_judges).filter (fun j => decide (i < j))).filterMap
      (fun j => pearsonr (matrixColumn rows i) (matrixColumn rows j))).flatten

/-- `MultiJudgeValidator.calculate_inter_rater_reliability`: average pairwise
correlation (0 when no pair produced one), its interpretation band, and the
matrix shape. -/
def calculate_inter_rater_reliability (pearsonr : List ℚ → List ℚ → Option ℚ)
    (rows : List (List ℚ)) : ReliabilityResult :=
  let n_judges := (rows.headD []).length
  let correlations := pairwise_correlations pearsonr rows n_judges
  let avg_correlation : ℚ :=
    if correlations.isEmpty then 0 else correlations.sum / (correlations.length : ℚ)
  { average_pairwise_correlation := avg_correlation
    reliability_interpretation := interpret_reliability avg_correlation
    individual_correlations := correlations
    n_judges := n_judges
    n_cases := rows.length }

/-- C1: the de-randomization step selects exactly one of two tables by the
assignment: with raw_text labeled A, winner A maps to "raw_text", B to
"vibexml", TIE to "tie" and side A scores and criteria are copied to
raw_text, side B to vibexml; otherwise the mirrored table is used; and for
any fixed assignment the winner mapping is a bijection on the three labels:
applying the same assignment's mapping in reverse recovers the original
verdict winner. -/
theorem judge_responses_derandomization (sj : StructuredJudgment)
    (tc r v : String) (b : Bool) :
    (winner_map true ABWinner.A = "raw_text" ∧ winner_map true ABWinner.B = "vibexml" ∧
      winner_map true ABWinner.TIE = "tie" ∧ winner_map false ABWinner.A = "vibexml" ∧
      winner_map false ABWinner.B = "raw_text" ∧ winner_map false ABWinner.TIE = "tie") ∧
    (judge_responses (Except.ok sj) tc b r v).winner = winner_map b sj.winner ∧
    ((judge_responses (Except.ok sj) tc true r v).confidence = (sj.confidence : ℚ) ∧
      (judge_responses (Except.ok sj) tc true r v).raw_text_score = (sj.response_a_overall : ℚ) ∧
      (judge_responses (Except.ok sj) tc true r v).vibexml_score = (sj.response_b_overall : ℚ) ∧
      (judge_responses (Except.ok sj) tc true r v).criteria_scores =
        criteriaScoresOf sj.response_a_scores sj.response_b_scores) ∧
    ((judge_responses (Except.ok sj) tc false r v).raw_text_score = (sj.response_b_overall : ℚ) ∧
      (judge_responses (Except.ok sj) tc false r v).vibexml_score = (sj.response_a_overall : ℚ) ∧
      (judge_responses (Except.ok sj) tc false r v).criteria_scores =
        criteriaScoresOf sj.response_b_scores sj.response_a_scores) ∧
    (∀ w : ABWinner, winner_unmap b (winner_map b w) = some w) ∧
    (∀ w w2 : ABWinner, winner_map b w = winner_map b w2 → w = w2) := by
  have hu : ∀ w : ABWinner, winner_unmap b (winner_map b w) = some w := by
    intro w
    cases b <;> cases w <;> rfl
  refine ⟨⟨rfl, rfl, rfl, rfl, rfl, rfl⟩, ?_, ⟨rfl, rfl, rfl, rfl⟩, ⟨rfl, rfl, rfl⟩, hu, ?_⟩
  · cases b <;> rfl
  · intro w w2 hw
    have h2 := hu w
    rw [hw, hu w2] at h2
    exact (Option.some.inj h2).symm

/-- C2: for every oracle behaviour, `judge_responses` returns a
`JudgmentResult` and never propagates an error: every exception from the
structured-judgment attempt (modelled as `Except.error`) is absorbed and the
deterministic fallback judgment is returned instead. -/
theorem judge_responses_never_raises (oracle : Except String StructuredJudgment)
    (tc : String) (b : Bool) (r v : String) :
    (∃ result : JudgmentResult, judge_responses oracle tc b r v = result) ∧
    (∀ e : String, oracle = Except.error e →
      judge_responses oracle tc b r v = fallback_judgment tc r v) := by
  refine ⟨⟨judge_responses oracle tc b r v, rfl⟩, ?_⟩
  rintro e rfl
  rfl

/-- C3: the fallback judgment is the deterministic function with each side
scored `min(word_count / 10 * 5, 100)` on whitespace-split words, winner
"tie" when the absolute score difference is strictly below 5 and otherwise
the higher-scoring side, confidence exactly 50, a fixed diagnostic reasoning
string, and a single synthetic "fallback" criteria entry; identical inputs
give identical results. -/
theorem fallback_judgment_spec (tc r v : String) :
    (fallback_judgment tc r v).raw_text_score = min ((wordCount r : ℚ) / 10 * 5) 100 ∧
    (fallback_judgment tc r v).vibexml_score = min ((wordCount v : ℚ) / 10 * 5) 100 ∧
    ((|(fallback_judgment tc r v).raw_text_score - (fallback_judgment tc r v).vibexml_score| < 5) →
      (fallback_judgment tc r v).winner = "tie") ∧
    ((5 ≤ |(fallback_judgment tc r v).raw_text_score - (fallback_judgment tc r v).vibexml_score|) →
      (fallback_judgment tc r v).winner =
        if (fallback_judgment tc r v).raw_text_score > (fallback_judgment tc r v).vibexml_score
        then "raw_text" else "vibexml") ∧
    (fallback_judgment tc r v).confidence = 50 ∧
    (fallback_judgment tc r v).reasoning = "Fallback judgment due to parsing error" ∧
    (fallback_judgment tc r v).criteria_scores =
      [("fallback", (fallback_judgment tc r v).raw_text_score,
        (fallback_judgment tc r v).vibexml_score)] ∧
    (∀ tc2 r2 v2 : String, tc2 = tc → r2 = r → v2 = v →
      fallback_judgment tc2 r2 v2 = fallback_judgment tc r v) := by
  refine ⟨rfl, rfl, ?_, ?_, rfl, rfl, rfl, ?_⟩
  · intro h
    exact if_pos h
  · intro h
    exact if_neg (not_lt.mpr h)
  · rintro tc2 r2 v2 rfl rfl rfl
    rfl

/-- C6: two-run determinism of the randomized assignment: constructing the
judge twice with the same fixed seed (seeding the shared random source once
at construction) and presenting the same ordered scenario list produces the
identical sequence of raw_text_is_a booleans, whatever the prior random
state of either run was. -/
theorem seeded_reproducibility {S : Type} (seedFn : Nat → S) (choice : S → Bool × S)
    (seed : Nat) (scenarios : List String) (s1 s2 : S) :
    run_assignments seedFn choice (some seed) scenarios s1 =
      run_assignments seedFn choice (some seed) scenarios s2 := rfl

/-- The three winner buckets are mutually exclusive and exhaustive on any
judgment list whose winners are the three canonical labels. -/
theorem winner_counts_partition (judgments : List JudgmentResult)
    (hw : ∀ j ∈ judgments, j.winner = "raw_text" ∨ j.winner = "vibexml" ∨ j.winner = "tie") :
    raw_text_wins judgments + vibexml_wins judgments + ties judgments = judgments.length := by
  induction judgments with
  | nil => rfl
  | cons j js ih =>
    have hj := hw j (by simp)
    have ih2 := ih (fun x hx => hw x (List.mem_cons_of_mem j hx))
    simp only [raw_text_wins, vibexml_wins, ties, List.filter_cons, List.length_cons] at ih2 ⊢
    rcases hj with h | h | h <;> simp [h] <;> omega

/-- C5: for every non-empty judgment list the winner counts satisfy
raw_text_wins + vibexml_wins + ties = n, and the reported win and tie rates
sum to 1. -/
theorem analyze_judgments_counts_and_rates (judgments : List JudgmentResult)
    (hne : judgments ≠ [])
    (hw : ∀ j ∈ judgments, j.winner = "raw_text" ∨ j.winner = "vibexml" ∨ j.winner = "tie") :
    raw_text_wins judgments + vibexml_wins judgments + ties judgments = judgments.length ∧
    (categorical_outcomes judgments).raw_text_win_rate +
      (categorical_outcomes judgments).vibexml_win_rate +
      (categorical_outcomes judgments).tie_rate = 1 := by
  have hsum := winner_counts_partition judgments hw
  refine ⟨hsum, ?_⟩
  have hlen : judgments.length ≠ 0 := fun h0 => hne (List.length_eq_zero.mp h0)
  have hq : (judgments.length : ℚ) ≠ 0 := Nat.cast_ne_zero.mpr hlen
  show (raw_text_wins judgments : ℚ) / (judgments.length : ℚ) +
      (vibexml_wins judgments : ℚ) / (judgments.length : ℚ) +
      (ties judgments : ℚ) / (judgments.length : ℚ) = 1
  rw [div_add_div_same, div_add_div_same, div_eq_one_iff_eq hq]
  exact_mod_cast hsum

/-- A concrete judgment record used to instantiate the aggregate theorems. -/
def mkJudgment (name w : String) : JudgmentResult :=
  { test_case_name := name
    winner := w
    confidence := 80
    raw_text_score := 70
    vibexml_score := 80
    reasoning := "example"
    criteria_scores := [] }

/-- Four concrete judgments: two vibexml wins, one raw_text win, one tie. -/
def exampleJudgments : List JudgmentResult :=
  [mkJudgment "t1" "vibexml", mkJudgment "t2" "raw_text",
   mkJudgment "t3" "tie", mkJudgment "t4" "vibexml"]

theorem analyze_judgments_counts_and_rates_witness :
    raw_text_wins exampleJudgments + vibexml_wins exampleJudgments + ties exampleJudgments
        = exampleJudgments.length ∧
    (categorical_outcomes exampleJudgments).raw_text_win_rate +
      (categorical_outcomes exampleJudgments).vibexml_win_rate +
      (categorical_outcomes exampleJudgments).tie_rate = 1 :=
  analyze_judgments_counts_and_rates exampleJudgments
    (by simp [exampleJudgments])
    (by
      intro j hj
      simp only [exampleJudgments, List.mem_cons, List.not_mem_nil, or_false] at hj
      rcases hj with h | h | h | h <;> subst h
      · exact Or.inr (Or.inl rfl)
      · exact Or.inl rfl
      · exact Or.inr (Or.inr rfl)
      · exact Or.inr (Or.inl rfl))

/-- C7: the categorical win-rate significance is the two-sided binomial test
of the vibexml win count against null probability one half over n total
comparisons, with significance flagged at p below 0.05; with n = 10 and 8
wins the reported two-sided p-value is 7/64, the standard tail computation
for p = 0.5, k = 8, n = 10, approximately 0.1094, and not significant. -/
theorem binomial_test_win_rate (judgments : List JudgmentResult)
    (h10 : judgments.length = 10) (h8 : vibexml_wins judgments = 8) :
    (categorical_outcomes judgments).binomial_test_p_value = 7 / 64 ∧
    (categorical_outcomes judgments).binomial_test_significant = false ∧
    binomtest_pvalue 8 10 =
      binomPmfHalf 10 0 + binomPmfHalf 10 1 + binomPmfHalf 10 2 +
        binomPmfHalf 10 8 + binomPmfHalf 10 9 + binomPmfHalf 10 10 ∧
    |(7 : ℚ) / 64 - 1094 / 10000| < 1 / 10 ^ 4 := by
  have hval : binomtest_pvalue 8 10 = 7 / 64 := by
    norm_num [binomtest_pvalue, Finset.sum_range_succ, binomPmfHalf, Nat.choose]
  have htails : binomtest_pvalue 8 10 =
      binomPmfHalf 10 0 + binomPmfHalf 10 1 + binomPmfHalf 10 2 +
        binomPmfHalf 10 8 + binomPmfHalf 10 9 + binomPmfHalf 10 10 := by
    norm_num [binomtest_pvalue, Finset.sum_range_succ, binomPmfHalf, Nat.choose]
  have happrox : |(7 : ℚ) / 64 - 1094 / 10000| < 1 / 10 ^ 4 := by
    have hd : (7 : ℚ) / 64 - 1094 / 10000 = -(1 / 40000) := by norm_num
    rw [hd, abs_neg, abs_of_pos (by norm_num : (0 : ℚ) < 1 / 40000)]
    norm_num
  refine ⟨?_, ?_, htails, happrox⟩
  · show binomtest_pvalue (vibexml_wins judgments) judgments.length = 7 / 64
    rw [h8, h10, hval]
  · show decide (binomtest_pvalue (vibexml_wins judgments) judgments.length < 1 / 20) = false
    rw [h8, h10, hval]
    simp only [decide_eq_false_iff_not, not_lt]
    norm_num

/-- Ten concrete judgments of which exactly 8 are vibexml wins. -/
def exampleTenJudgments : List JudgmentResult :=
  List.replicate 8 (mkJudgment "w" "vibexml") ++ List.replicate 2 (mkJudgment "t" "tie")

theorem binomial_test_win_rate_witness :
    (categorical_outcomes exampleTenJudgments).binomial_test_p_value = 7 / 64 ∧
    (categorical_outcomes exampleTenJudgments).binomial_test_significant = false ∧
    binomtest_pvalue 8 10 =
      binomPmfHalf 10 0 + binomPmfHalf 10 1 + binomPmfHalf 10 2 +
        binomPmfHalf 10 8 + binomPmfHalf 10 9 + binomPmfHalf 10 10 ∧
    |(7 : ℚ) / 64 - 1094 / 10000| < 1 / 10 ^ 4 :=
  binomial_test_win_rate exampleTenJudgments (by rfl) (by rfl)

/-- C8 amended: a verdict from the validated structured judgment has both
overall scores in [60, 95] and confidence in [50, 100]; the fallback verdict
has confidence exactly 50 (inside [50, 100]) but its overall scores are only
bounded in [0, 100] and can fall outside [60, 95]. -/
theorem verdict_score_ranges (sj : StructuredJudgment) (tc r v : String) (b : Bool)
    (hv : sj.Valid) :
    (60 ≤ (judge_responses (Except.ok sj) tc b r v).raw_text_score ∧
      (judge_responses (Except.ok sj) tc b r v).raw_text_score ≤ 95 ∧
      60 ≤ (judge_responses (Except.ok sj) tc b r v).vibexml_score ∧
      (judge_responses (Except.ok sj) tc b r v).vibexml_score ≤ 95 ∧
      50 ≤ (judge_responses (Except.ok sj) tc b r v).confidence ∧
      (judge_responses (Except.ok sj) tc b r v).confidence ≤ 100) ∧
    ((fallback_judgment tc r v).confidence = 50 ∧
      0 ≤ (fallback_judgment tc r v).raw_text_score ∧
      (fallback_judgment tc r v).raw_text_score ≤ 100 ∧
      0 ≤ (fallback_judgment tc r v).vibexml_score ∧
      (fallback_judgment tc r v).vibexml_score ≤ 100) := by
  obtain ⟨-, -, ha60, ha95, hb60, hb95, hc50, hc100, -, -⟩ := hv
  have hsc : ∀ s : String, 0 ≤ min ((wordCount s : ℚ) / 10 * 5) 100 ∧
      min ((wordCount s : ℚ) / 10 * 5) 100 ≤ 100 := by
    intro s
    exact ⟨le_min (by positivity) (by norm_num), min_le_right _ _⟩
  constructor
  · cases b
    · refine ⟨?_, ?_, ?_, ?_, ?_, ?_⟩
      · show (60 : ℚ) ≤ (sj.response_b_overall : ℚ)
        exact_mod_cast hb60
      · show (sj.response_b_overall : ℚ) ≤ 95
        exact_mod_cast hb95
      · show (60 : ℚ) ≤ (sj.response_a_overall : ℚ)
        exact_mod_cast ha60
      · show (sj.response_a_overall : ℚ) ≤ 95
        exact_mod_cast ha95
      · show (50 : ℚ) ≤ (sj.confidence : ℚ)
        exact_mod_cast hc50
      · show (sj.confidence : ℚ) ≤ 100
        exact_mod_cast hc100
    · refine ⟨?_, ?_, ?_, ?_, ?_, ?_⟩
      · show (60 : ℚ) ≤ (sj.response_a_overall : ℚ)
        exact_mod_cast ha60
      · show (sj.response_a_overall : ℚ) ≤ 95
        exact_mod_cast ha95
      · show (60 : ℚ) ≤ (sj.response_b_overall : ℚ)
        exact_mod_cast hb60
      · show (sj.response_b_overall : ℚ) ≤ 95
        exact_mod_cast hb95
      · show (50 : ℚ) ≤ (sj.confidence : ℚ)
        exact_mod_cast hc50
      · show (sj.confidence : ℚ) ≤ 100
        exact_mod_cast hc100
  · exact ⟨rfl, (hsc r).1, (hsc r).2, (hsc v).1, (hsc v).2⟩

/-- Concrete criterion scores, all within [60, 95]. -/
def exampleCriteria : CriteriaScores :=
  { accuracy_completeness := 80
    structured_data_utilization := 85
    precision_specificity := 75
    logical_flow_organization := 90
    contextual_understanding := 70 }

/-- A concrete structured verdict satisfying every pydantic constraint. -/
def exampleStructuredJudgment : StructuredJudgment :=
  { winner := ABWinner.B
    response_a_scores := exampleCriteria
    response_b_scores := exampleCriteria
    response_a_overall := 80
    response_b_overall := 85
    confidence := 75
    reasoning := "Response B uses the structured data far more effectively than Response A throughout."
    main_advantages := ["clearer structure", "more specific values"] }

theorem verdict_score_ranges_witness :
    (60 ≤ (judge_responses (Except.ok exampleStructuredJudgment) "tc" true "r" "v").raw_text_score ∧
      (judge_responses (Except.ok exampleStructuredJudgment) "tc" true "r" "v").raw_text_score ≤ 95 ∧
      60 ≤ (judge_responses (Except.ok exampleStructuredJudgment) "tc" true "r" "v").vibexml_score ∧
      (judge_responses (Except.ok exampleStructuredJudgment) "tc" true "r" "v").vibexml_score ≤ 95 ∧
      50 ≤ (judge_responses (Except.ok exampleStructuredJudgment) "tc" true "r" "v").confidence ∧
      (judge_responses (Except.ok exampleStructuredJudgment) "tc" true "r" "v").confidence ≤ 100) ∧
    ((fallback_judgment "tc" "r" "v").confidence = 50 ∧
      0 ≤ (fallback_judgment "tc" "r" "v").raw_text_score ∧
      (fallback_judgment "tc" "r" "v").raw_text_score ≤ 100 ∧
      0 ≤ (fallback_judgment "tc" "r" "v").vibexml_score ∧
      (fallback_judgment "tc" "r" "v").vibexml_score ≤ 100) :=
  verdict_score_ranges exampleStructuredJudgment "tc" "r" "v" true (by decide)

/-- C8 counterexample: the fallback judgment on empty responses returns an
overall score of 0, outside the claimed range [60, 95]; so not every verdict
has its overall scores in [60, 95]. -/
theorem fallback_score_outside_claimed_range :
    (fallback_judgment "case" "" "").raw_text_score = 0 ∧
    ¬ (60 ≤ (fallback_judgment "case" "" "").raw_text_score ∧
       (fallback_judgment "case" "" "").raw_text_score ≤ 95) := by
  have h0 : (fallback_judgment "case" "" "").raw_text_score = 0 := by
    show min ((wordCount "" : ℚ) / 10 * 5) 100 = 0
    have hw : wordCount "" = 0 := rfl
    rw [hw]
    norm_num [min_def]
  refine ⟨h0, fun hc => ?_⟩
  rw [h0] at hc
  norm_num at hc

/-- C9 amended: a judgments-by-judges matrix with fewer than 2 judges is not
rejected: the correlation loop runs over no pair, and the computation
recovers into a degraded result with average pairwise correlation 0,
interpretation "poor" and an empty correlation list, whatever the pairwise
correlation function does. -/
theorem inter_rater_reliability_few_judges_degraded
    (pearsonr : List ℚ → List ℚ → Option ℚ) (rows : List (List ℚ))
    (h : (rows.headD []).length < 2) :
    calculate_inter_rater_reliability pearsonr rows =
      { average_pairwise_correlation := 0
        reliability_interpretation := "poor"
        individual_correlations := []
        n_judges := (rows.headD []).length
        n_cases := rows.length } := by
  have hcor : pairwise_correlations pearsonr rows (rows.headD []).length = [] := by
    have h01 : (rows.headD []).length = 0 ∨ (rows.headD []).length = 1 := by omega
    rcases h01 with h0 | h1
    · rw [h0]
      rfl
    · rw [h1]
      rfl
  have hip : interpret_reliability 0 = "poor" := by
    norm_num [interpret_reliability]
  simp only [calculate_inter_rater_reliability, hcor, List.isEmpty_nil, if_true, hip]

/-- A concrete stand-in for the external pairwise correlation call; the
few-judges path never invokes it. -/
def examplePearson : List ℚ → List ℚ → Option ℚ := fun _ _ => none

theorem inter_rater_reliability_few_judges_degraded_witness :
    calculate_inter_rater_reliability examplePearson [[5], [6]] =
      { average_pairwise_correlation := 0
        reliability_interpretation := "poor"
        individual_correlations := []
        n_judges := 1
        n_cases := 2 } :=
  inter_rater_reliability_few_judges_degraded examplePearson [[5], [6]] (by decide)

/-- C9 counterexample: a 3-cases-by-1-judge score matrix is accepted and
produces an ordinary degraded result (average correlation 0, interpretation
"poor") instead of surfacing a rejected-input error. -/
theorem inter_rater_reliability_single_judge_result :
    calculate_inter_rater_reliability examplePearson [[70], [80], [90]] =
      { average_pairwise_correlation := 0
        reliability_interpretation := "poor"
        individual_correlations := []
        n_judges := 1
        n_cases := 3 } :=
  inter_rater_reliability_few_judges_degraded examplePearson [[70], [80], [90]] (by decide)

/-- C4: Cohen's d is (mean(group2) - mean(group1)) divided by the pooled
standard deviation built from the two ddof = 1 sample standard deviations,
and whenever the pooled standard deviation equals 0 the returned value is
exactly 0 rather than a division error. -/
theorem calculate_effect_size_cohens_d (group1 group2 : List ℝ) (ps : ℝ)
    (hps : pooled_std group1 group2 = some ps) :
    (ps = 0 → cohens_d group1 group2 = some 0) ∧
    (ps ≠ 0 → ∀ m1 m2 : ℝ, np_mean group1 = some m1 → np_mean group2 = some m2 →
      cohens_d group1 group2 = some ((m2 - m1) / ps)) := by
  constructor
  · rintro rfl
    simp [cohens_d, hps]
  · intro hne m1 m2 h1 h2
    simp [cohens_d, hps, hne, h1, h2]

theorem calculate_effect_size_cohens_d_witness :
    pooled_std [80, 80, 80] [80, 80, 80] = some 0 ∧
    cohens_d [80, 80, 80] [80, 80, 80] = some 0 := by
  have hm : np_mean [(80 : ℝ), 80, 80] = some 80 := by
    simp [np_mean, rdiv]
    norm_num
  have hv : np_var_ddof1 [(80 : ℝ), 80, 80] = some 0 := by
    simp [np_var_ddof1, hm, rdiv]
    norm_num
  have hs : np_std_ddof1 [(80 : ℝ), 80, 80] = some 0 := by
    simp [np_std_ddof1, hv, Real.sqrt_zero]
  have hps : pooled_std [(80 : ℝ), 80, 80] [80, 80, 80] = some 0 := by
    simp [pooled_std, hs, rdiv]
    norm_num [Real.sqrt_zero]
  exact ⟨hps, (calculate_effect_size_cohens_d _ _ 0 hps).1 rfl⟩

/-- C10: on two singleton inputs the pooled-variance denominator
len(group1) + len(group2) - 2 is 0, the pooled-standard-deviation
computation divides by zero (NaN, modelled none), the d = 0 degeneracy
fallback does not apply (the result is not 0), and the degenerate-variance
division is unreachable whenever each list has at least two elements. -/
theorem effect_size_singleton_division (x y : ℝ) :
    (([x] : List ℝ).length : ℝ) + (([y] : List ℝ).length : ℝ) - 2 = 0 ∧
    np_var_ddof1 [x] = none ∧
    pooled_std [x] [y] = none ∧
    cohens_d [x] [y] = none ∧
    cohens_d [x] [y] ≠ some 0 ∧
    (∀ g1 g2 : List ℝ, 2 ≤ g1.length → 2 ≤ g2.length →
      ∃ ps : ℝ, pooled_std g1 g2 = some ps) := by
  have hvar : np_var_ddof1 [x] = none := by
    simp [np_var_ddof1, np_mean, rdiv]
  have hpool : pooled_std [x] [y] = none := by
    simp [pooled_std, np_std_ddof1, hvar]
  have hd : cohens_d [x] [y] = none := by
    simp [cohens_d, hpool]
  refine ⟨by norm_num, hvar, hpool, hd, by simp [hd], ?_⟩
  intro g1 g2 h1 h2
  have h1r : (2 : ℝ) ≤ (g1.length : ℝ) := by exact_mod_cast h1
  have h2r : (2 : ℝ) ≤ (g2.length : ℝ) := by exact_mod_cast h2
  have hl1 : (g1.length : ℝ) ≠ 0 := by linarith
  have hl2 : (g2.length : ℝ) ≠ 0 := by linarith
  have hd1 : ((g1.length : ℝ) - 1) ≠ 0 := by linarith
  have hd2 : ((g2.length : ℝ) - 1) ≠ 0 := by linarith
  have hpd : ((g1.length : ℝ) + (g2.length : ℝ) - 2) ≠ 0 := by linarith
  have hm1 : np_mean g1 = some (g1.sum / (g1.length : ℝ)) := by
    simp [np_mean, rdiv, hl1]
  have hm2 : np_mean g2 = some (g2.sum / (g2.length : ℝ)) := by
    simp [np_mean, rdiv, hl2]
  have hv1 : np_var_ddof1 g1 =
      some ((g1.map fun z => (z - g1.sum / (g1.length : ℝ)) ^ 2).sum / ((g1.length : ℝ) - 1)) := by
    simp [np_var_ddof1, hm1, rdiv, hd1]
  have hv2 : np_var_ddof1 g2 =
      some ((g2.map fun z => (z - g2.sum / (g2.length : ℝ)) ^ 2).sum / ((g2.length : ℝ) - 1)) := by
    simp [np_var_ddof1, hm2, rdiv, hd2]
  rw [← Option.ne_none_iff_exists']
  simp [pooled_std, np_std_ddof1, hv1, hv2, rdiv, hpd]
